import Mathlib

/-!
Verification development for `libtmx`, a C++11 library reading TMX tile-map
files into an immutable in-memory map model.  The repository ships only the
public entry-point header (`tmx/TMX.h`) and the documentation page
(`index.dox`); the component implementations (tile-data decoder, tileset
resolver, model builder, layer visitor) are therefore modelled here from the
specification, faithfully to its words, and the claims are settled against
these models.
-/

namespace Tmx

/-- Modelled from the spec: the six error kinds of §7.  `xmlError` stands for
SyntaxError (malformed input tree, delegated from the XML collaborator);
the other five keep their spec names.  `rangeError` is raised only by the
Tileset Resolver at resolution time. -/
inductive TmxError where
  | xmlError
  | schemaError
  | encodingError
  | decodeError
  | referenceError
  | rangeError
deriving DecidableEq, Repr

/-- Modelled from the spec: a Cell is "a packed 32-bit tile reference split
into a local tile id (low 29 bits) and three orientation flags (horizontal
flip, vertical flip, diagonal flip/rotate, top 3 bits)". -/
structure Cell where
  tileId : Nat
  hflip : Bool
  vflip : Bool
  dflip : Bool
deriving DecidableEq, Repr

/-- Modelled from the spec: the raw tile id left after stripping the top-3
orientation flag bits of the 32-bit packed reference: the low 29 bits. -/
def rawId (gid : Nat) : Nat := gid % 2 ^ 29

/-- Modelled from the spec: decode a packed 32-bit tile reference into a
Cell: local tile id from the low 29 bits, the three orientation flags from
bits 31 (horizontal), 30 (vertical) and 29 (diagonal). -/
def decodeCell (gid : Nat) : Cell :=
  { tileId := rawId gid
    hflip := gid / 2 ^ 31 % 2 == 1
    vflip := gid / 2 ^ 30 % 2 == 1
    dflip := gid / 2 ^ 29 % 2 == 1 }

/-- Numeric weight of the three flag bits of a decoded Cell (bit 31 for
horizontal, bit 30 for vertical, bit 29 for diagonal). -/
def flagBitsVal (c : Cell) : Nat :=
  (if c.hflip then 2 ^ 31 else 0) + (if c.vflip then 2 ^ 30 else 0) +
    (if c.dflip then 2 ^ 29 else 0)

/-- Modelled from the spec: a Tileset record.  The resolver only consults
`firstGID` ("the smallest packed tile reference this tileset owns") and
`tileCount`; the remaining numeric fields are carried as declared by §3. -/
structure TileSet where
  firstGID : Nat
  tileWidth : Nat
  tileHeight : Nat
  spacing : Nat
  margin : Nat
  tileCount : Nat
  columns : Nat
deriving DecidableEq, Repr

/-- Result of the Tileset Resolver: the empty cell (raw id 0), a tileset
found (given by its position in the map's Tileset sequence, with the derived
local index), or an out-of-range condition (RangeError). -/
inductive ResolveResult where
  | empty
  | found (index : Nat) (localId : Nat)
  | rangeError
deriving DecidableEq, Repr

/-- Modelled from the spec: "find the tileset with the largest firstGID ≤ raw
id" over the map's Tileset sequence sorted ascending by firstGID, i.e. the
last list entry whose firstGID is ≤ the raw id, returned with its position. -/
def findOwner (raw : Nat) : List TileSet → Option (Nat × TileSet)
  | [] => none
  | t :: rest =>
    match findOwner raw rest with
    | some p => some (p.1 + 1, p.2)
    | none => if t.firstGID ≤ raw then some (0, t) else none

/-- Modelled from the spec: the Tileset Resolver (`getTileSetFromGID`): strip
the orientation flag bits to obtain the raw tile id; a raw id of 0 has no
owning tileset (the empty cell); fail with an out-of-range condition if the
raw id exceeds every tileset's declared tile capacity (its firstGID plus its
tile count — the reading under which the spec's own worked example, raw id 60
against capacities 9/49/60, still resolves); otherwise take the tileset with
the largest firstGID ≤ raw id, the local index being raw id − firstGID. -/
def getTileSetFromGID (tilesets : List TileSet) (gid : Nat) : ResolveResult :=
  let raw := rawId gid
  if raw = 0 then .empty
  else if tilesets.all fun t => t.firstGID + t.tileCount < raw then .rangeError
  else
    match findOwner raw tilesets with
    | some p => .found p.1 (raw - p.2.firstGID)
    | none => .rangeError

/-- The three-tileset sequence of the spec's worked example: firstGID values
1, 10, 50 and tile counts 8, 39, 10 (the other fields set to a 16×16 grid
shape, irrelevant to resolution). -/
def demoTileSets : List TileSet :=
  [ { firstGID := 1, tileWidth := 16, tileHeight := 16, spacing := 0,
      margin := 0, tileCount := 8, columns := 4 }
  , { firstGID := 10, tileWidth := 16, tileHeight := 16, spacing := 0,
      margin := 0, tileCount := 39, columns := 8 }
  , { firstGID := 50, tileWidth := 16, tileHeight := 16, spacing := 0,
      margin := 0, tileCount := 10, columns := 5 } ]

/-- Modelled from the spec: the non-overlap shape of a well-formed Tileset
sequence — each tileset's range of owned raw ids ends no later than the next
tileset's firstGID begins. -/
def nonOverlapping : List TileSet → Prop
  | [] => True
  | [_] => True
  | t :: u :: rest => t.firstGID + t.tileCount ≤ u.firstGID ∧ nonOverlapping (u :: rest)

/-- Modelled from the spec: a CSV-payload separator, a comma or whitespace
(space, tab, line feed, carriage return), identified by code point. -/
def isSepChar (c : Char) : Bool :=
  c.toNat == 44 || c.toNat == 32 || c.toNat == 9 || c.toNat == 10 || c.toNat == 13

/-- A decimal digit character, identified by code point. -/
def isDigitChar (c : Char) : Bool := 48 ≤ c.toNat && c.toNat ≤ 57

/-- Accumulator-passing worker of `splitTokens`: the accumulator holds the
current token reversed; a separator flushes it. -/
def splitAux : List Char → List Char → List (List Char)
  | [], acc => if acc.isEmpty then [] else [acc.reverse]
  | c :: cs, acc =>
    if isSepChar c then
      if acc.isEmpty then splitAux cs [] else acc.reverse :: splitAux cs []
    else splitAux cs (c :: acc)

/-- Modelled from the spec: split a flat comma/whitespace-separated character
stream into its maximal separator-free tokens. -/
def splitTokens (cs : List Char) : List (List Char) := splitAux cs []

/-- Value of a digit string read most-significant first. -/
def digitsVal (cs : List Char) : Nat := cs.foldl (fun a c => a * 10 + (c.toNat - 48)) 0

/-- Parse a non-empty all-digit token as a decimal integer; anything else is
not a decimal integer. -/
def parseDecimal (cs : List Char) : Option Nat :=
  if cs.isEmpty then none
  else if cs.all isDigitChar then some (digitsVal cs) else none

/-- Parse every token of a list as a decimal integer, in order; fail if any
token fails. -/
def parseAllDecimals : List (List Char) → Option (List Nat)
  | [] => some []
  | tok :: rest =>
    match parseDecimal tok, parseAllDecimals rest with
    | some n, some ns => some (n :: ns)
    | _, _ => none

/-- Modelled from the spec: the CSV branch of the Tile-Data Decoder — content
is a flat comma/whitespace-separated decimal integer list, parsed and emitted
in order; the count must equal the expected cell count, else the decode
fails with DecodeError, never truncating or padding. -/
def decodeCSV (content : List Char) (expected : Nat) : Except TmxError (List Nat) :=
  match parseAllDecimals (splitTokens content) with
  | none => .error .decodeError
  | some ws => if ws.length = expected then .ok ws else .error .decodeError

/-- Modelled from the spec: one per-cell element node of a Plain-encoded
payload, carrying one decimal "gid" attribute (as its attribute text). -/
structure GidNode where
  gidAttr : List Char
deriving DecidableEq, Repr

/-- Modelled from the spec: the Plain branch of the Tile-Data Decoder —
content is a sequence of per-cell element nodes, each carrying one decimal
"gid" attribute, emitted in document order; the decoder's contract produces
exactly the expected number of packed references, so a count mismatch fails
with DecodeError. -/
def decodePlain (nodes : List GidNode) (expected : Nat) : Except TmxError (List Nat) :=
  match parseAllDecimals (nodes.map GidNode.gidAttr) with
  | none => .error .decodeError
  | some ws => if ws.length = expected then .ok ws else .error .decodeError

/-- Serialize a sequence of 32-bit words as a little-endian byte buffer, four
bytes per word. -/
def toLEBytes : List Nat → List Nat
  | [] => []
  | w :: ws =>
    w % 256 :: w / 256 % 256 :: w / 65536 % 256 :: w / 16777216 % 256 :: toLEBytes ws

/-- Modelled from the spec: interpret a byte buffer as little-endian 32-bit
words; no result when the length is not a multiple of 4. -/
def bytesToWords : List Nat → Option (List Nat)
  | [] => some []
  | b0 :: b1 :: b2 :: b3 :: rest =>
    match bytesToWords rest with
    | some ws => some ((b0 + 256 * b1 + 65536 * b2 + 16777216 * b3) :: ws)
    | none => none
  | _ => none

/-- Modelled from the spec: the final step of the Base64 branch — the
decompressed byte buffer is interpreted as little-endian 32-bit words, and
the decode fails with DecodeError if the byte length is not a multiple of 4
or the word count does not match the expected cell count. -/
def interpretByteBuffer (bytes : List Nat) (expected : Nat) : Except TmxError (List Nat) :=
  match bytesToWords bytes with
  | none => .error .decodeError
  | some ws => if ws.length = expected then .ok ws else .error .decodeError

/-- Modelled from the spec: the compression tag wrapping a Base64 payload:
`none` (here `noComp`), `zlib` or `gzip`. -/
inductive Compression where
  | noComp
  | zlib
  | gzip
deriving DecidableEq, Repr

/-- Modelled from the spec (§6): the two external collaborators the decoder
consumes — a Base64 decode collaborator (ASCII text to byte buffer, or
failure) and a decompression collaborator (byte buffer and compression tag to
decompressed buffer, or failure). -/
structure Collab where
  base64Decode : List Char → Option (List Nat)
  decompress : Compression → List Nat → Option (List Nat)

/-- Modelled from the spec: the Base64 branch of the Tile-Data Decoder —
content is decoded from its text radix by the collaborator, then decompressed
per the compression tag (a failing collaborator surfaces as DecodeError),
yielding a byte buffer interpreted as little-endian 32-bit words. -/
def decodeBase64Payload (cb : Collab) (comp : Compression) (content : List Char)
    (expected : Nat) : Except TmxError (List Nat) :=
  match cb.base64Decode content with
  | none => .error .decodeError
  | some bytes =>
    match comp with
    | .noComp => interpretByteBuffer bytes expected
    | c =>
      match cb.decompress c bytes with
      | none => .error .decodeError
      | some plain => interpretByteBuffer plain expected

/-- The character of a single decimal digit. -/
def digitCharOf (d : Nat) : Char := Char.ofNat (48 + d)

/-- Fuel-indexed worker of `natDigits` (the fuel makes the recursion
structural, so concrete payloads evaluate inside the kernel). -/
def natDigitsAux : Nat → Nat → List Char
  | 0, _ => []
  | fuel + 1, n =>
    if n < 10 then [digitCharOf n]
    else natDigitsAux fuel (n / 10) ++ [digitCharOf (n % 10)]

/-- The standard decimal rendering of a natural number, most significant
digit first. -/
def natDigits (n : Nat) : List Char := natDigitsAux (n + 1) n

/-- The canonical CSV payload representing an integer sequence: the decimal
renderings joined by commas. -/
def renderCSV : List Nat → List Char
  | [] => []
  | [w] => natDigits w
  | w :: ws => natDigits w ++ ',' :: renderCSV ws

/-- The canonical Plain payload representing an integer sequence: one
per-cell node per integer, in order, carrying its decimal rendering. -/
def plainNodesOf (ws : List Nat) : List GidNode :=
  ws.map fun w => { gidAttr := natDigits w }

/-- Modelled from the spec: an Image reference (source path). -/
structure Image where
  source : String
deriving DecidableEq, Repr

/-- Modelled from the spec: the common Object fields the claims touch — id,
name, position — shared by every Object variant. -/
structure ObjectCommon where
  id : Nat
  name : String
  x : Nat
  y : Nat
deriving DecidableEq, Repr

/-- Modelled from the spec: an Object is polymorphic over the closed variant
set Rectangle, Ellipse, Polygon, Polyline, TileObject, TextObject; a
TileObject additionally carries a packed tile reference (gid), and
Polygon/Polyline carry their point-list text. -/
inductive Object where
  | rectangle (c : ObjectCommon) (width height : Nat)
  | ellipse (c : ObjectCommon) (width height : Nat)
  | polygon (c : ObjectCommon) (points : List Char)
  | polyline (c : ObjectCommon) (points : List Char)
  | tileObject (c : ObjectCommon) (gid : Nat)
  | textObject (c : ObjectCommon) (content : List Char)
deriving DecidableEq, Repr

/-- Modelled from the source documentation (`index.dox`): `Object::isTile`,
the predicate guarding the documented downcast of an object to
`tmx::TileObject`. -/
def Object.isTile : Object → Bool
  | .tileObject _ _ => true
  | _ => false

/-- The property the `isTile` guard is meant to detect, stated independently:
the object's concrete variant is TileObject. -/
def isTileObjectVariant (o : Object) : Prop :=
  ∃ c g, o = Object.tileObject c g

/-- Modelled from the spec: the payload of a TileLayer — common fields plus
its declared dimensions and the ordered row-major Cell sequence. -/
structure TileLayerData where
  name : String
  visible : Bool
  width : Nat
  height : Nat
  cells : List Cell
deriving DecidableEq, Repr

/-- Modelled from the spec: the payload of an ObjectLayer — common fields
plus the ordered Object sequence. -/
structure ObjectLayerData where
  name : String
  visible : Bool
  objects : List Object
deriving DecidableEq, Repr

/-- Modelled from the spec: the payload of an ImageLayer — common fields plus
one Image reference. -/
structure ImageLayerData where
  name : String
  visible : Bool
  image : Image
deriving DecidableEq, Repr

mutual
/-- Modelled from the spec: a Layer is polymorphic over the closed variant
set TileLayer, ObjectLayer, ImageLayer, GroupLayer; a GroupLayer owns an
ordered sequence of child Layers (recursive, enabling arbitrary nesting). -/
inductive Layer where
  | tileLayer (d : TileLayerData)
  | objectLayer (d : ObjectLayerData)
  | imageLayer (d : ImageLayerData)
  | groupLayer (name : String) (visible : Bool) (children : LayerForest)
/-- An ordered sequence of sibling Layers (the children of a GroupLayer or
the top-level layer sequence of a Map), in document order. -/
inductive LayerForest where
  | nil
  | cons (head : Layer) (tail : LayerForest)
end

/-- Modelled from the source documentation (`index.dox`): the
`tmx::LayerVisitor` capability set — one operation per concrete leaf layer
variant (visitTileLayer, visitObjectLayer, visitImageLayer); the state `σ`
models the visitor object's own mutable state. -/
structure LayerVisitor (σ : Type) where
  visitTileLayer : σ → TileLayerData → σ
  visitObjectLayer : σ → ObjectLayerData → σ
  visitImageLayer : σ → ImageLayerData → σ

mutual
/-- Modelled from the spec: the traversal operation (`visitLayers`) walks a
layer depth-first in document order, dispatching each leaf layer to the
capability matching its concrete variant; a GroupLayer is not itself
dispatched — its children are traversed in order. -/
def visitLayer {σ : Type} (v : LayerVisitor σ) (s : σ) : Layer → σ
  | .tileLayer d => v.visitTileLayer s d
  | .objectLayer d => v.visitObjectLayer s d
  | .imageLayer d => v.visitImageLayer s d
  | .groupLayer _ _ children => visitForest v s children
/-- Traverse a sibling sequence left to right, threading the visitor state. -/
def visitForest {σ : Type} (v : LayerVisitor σ) (s : σ) : LayerForest → σ
  | .nil => s
  | .cons l rest => visitForest v (visitLayer v s l) rest
end

/-- A record of one leaf-capability invocation: which capability fired and
the name of the layer it received. -/
inductive VisitEvent where
  | tileEvent (name : String)
  | objectEvent (name : String)
  | imageEvent (name : String)
deriving DecidableEq, Repr

/-- The recording visitor: each capability appends the matching event. -/
def recorder : LayerVisitor (List VisitEvent) where
  visitTileLayer s d := s ++ [.tileEvent d.name]
  visitObjectLayer s d := s ++ [.objectEvent d.name]
  visitImageLayer s d := s ++ [.imageEvent d.name]

mutual
/-- The leaves of a layer tree in depth-first, document order, each tagged
with its concrete variant — the order and dispatch the spec promises. -/
def dfsLeaves : Layer → List VisitEvent
  | .tileLayer d => [.tileEvent d.name]
  | .objectLayer d => [.objectEvent d.name]
  | .imageLayer d => [.imageEvent d.name]
  | .groupLayer _ _ children => dfsForestLeaves children
/-- The leaves of a sibling sequence, left to right. -/
def dfsForestLeaves : LayerForest → List VisitEvent
  | .nil => []
  | .cons l rest => dfsLeaves l ++ dfsForestLeaves rest
end

/-- A leaf layer with its full payload, tagged by its concrete variant — one
entry per leaf-capability invocation of a traversal. -/
inductive LeafItem where
  | tileItem (d : TileLayerData)
  | objectItem (d : ObjectLayerData)
  | imageItem (d : ImageLayerData)
deriving DecidableEq, Repr

/-- Dispatch one leaf to the capability matching its concrete variant. -/
def dispatchLeaf {σ : Type} (v : LayerVisitor σ) (s : σ) : LeafItem → σ
  | .tileItem d => v.visitTileLayer s d
  | .objectItem d => v.visitObjectLayer s d
  | .imageItem d => v.visitImageLayer s d

mutual
/-- The leaf layers of a layer tree with their payloads, in depth-first,
document order. -/
def dfsItems : Layer → List LeafItem
  | .tileLayer d => [.tileItem d]
  | .objectLayer d => [.objectItem d]
  | .imageLayer d => [.imageItem d]
  | .groupLayer _ _ children => dfsForestItems children
/-- The leaf layers of a sibling sequence, left to right. -/
def dfsForestItems : LayerForest → List LeafItem
  | .nil => []
  | .cons l rest => dfsItems l ++ dfsForestItems rest
end

/-- A tile layer leaf with a given name (dimensions and cells immaterial to
traversal order). -/
def tileLeaf (n : String) : Layer :=
  .tileLayer { name := n, visible := true, width := 0, height := 0, cells := [] }

/-- An object layer leaf with a given name. -/
def objectLeaf (n : String) : Layer :=
  .objectLayer { name := n, visible := true, objects := [] }

/-- An image layer leaf with a given name. -/
def imageLeaf (n : String) : Layer :=
  .imageLayer { name := n, visible := true, image := { source := "img.png" } }

/-- The layer tree of the spec's traversal example: a top-level GroupLayer
containing TileLayer A, a GroupLayer holding ObjectLayer B and ImageLayer C,
then TileLayer D. -/
def exampleTree : Layer :=
  .groupLayer "top" true
    (.cons (tileLeaf "A")
      (.cons (.groupLayer "inner" true
        (.cons (objectLeaf "B") (.cons (imageLeaf "C") .nil)))
        (.cons (tileLeaf "D") .nil)))

/-- Modelled from the spec: the Map orientation domain. -/
inductive Orientation where
  | orthogonal
  | isometric
  | staggered
  | hexagonal
deriving DecidableEq, Repr

mutual
/-- Modelled from the spec (§6): a node of the generic attributed tree the
external XML collaborator delivers — an element tag, an ordered attribute
mapping, optional text content, and ordered child nodes. -/
inductive XmlNode where
  | elem (tag : String) (attrs : List (String × String)) (text : List Char)
      (children : XmlForest)
/-- An ordered sequence of sibling nodes. -/
inductive XmlForest where
  | nil
  | cons (head : XmlNode) (tail : XmlForest)
end

/-- The element tag of a node. -/
def XmlNode.tag : XmlNode → String
  | .elem t _ _ _ => t

/-- The attribute mapping of a node. -/
def XmlNode.attrs : XmlNode → List (String × String)
  | .elem _ a _ _ => a

/-- The text content of a node. -/
def XmlNode.text : XmlNode → List Char
  | .elem _ _ tx _ => tx

/-- The child nodes of a node. -/
def XmlNode.children : XmlNode → XmlForest
  | .elem _ _ _ c => c

/-- Look an attribute up by name in a node's attribute mapping. -/
def lookupAttr : List (String × String) → String → Option String
  | [], _ => none
  | (k, v) :: rest, key => if k == key then some v else lookupAttr rest key

/-- Modelled from the spec (§6): the file-access collaborator — resolve a
reference path to the already-parsed tree of the referenced fragment, or
nothing when the file is missing or unreadable. -/
def lookupFile : List (String × XmlNode) → String → Option XmlNode
  | [], _ => none
  | (p, n) :: rest, path => if p == path then some n else lookupFile rest path

/-- Modelled from the spec: a required numeric attribute — missing or
unparseable aborts with SchemaError. -/
def reqNatAttr (attrs : List (String × String)) (key : String) : Except TmxError Nat :=
  match lookupAttr attrs key with
  | none => .error .schemaError
  | some s =>
    match parseDecimal s.data with
    | none => .error .schemaError
    | some n => .ok n

/-- Modelled from the spec: a required numeric attribute whose declared
domain is the positive integers — a value outside the domain aborts with
SchemaError. -/
def reqPosNatAttr (attrs : List (String × String)) (key : String) : Except TmxError Nat :=
  match reqNatAttr attrs key with
  | .error e => .error e
  | .ok n => if n = 0 then .error .schemaError else .ok n

/-- Modelled from the spec: an optional numeric attribute with its
per-element schema default, applied exactly when the attribute is absent;
a present but unparseable value aborts with SchemaError. -/
def optNatAttr (attrs : List (String × String)) (key : String) (dflt : Nat) :
    Except TmxError Nat :=
  match lookupAttr attrs key with
  | none => .ok dflt
  | some s =>
    match parseDecimal s.data with
    | none => .error .schemaError
    | some n => .ok n

/-- Modelled from the spec: the visibility flag, defaulting to true when the
attribute is absent. -/
def visibleAttr (attrs : List (String × String)) : Bool :=
  match lookupAttr attrs "visible" with
  | some s => !(s == "0")
  | none => true

/-- The name attribute, defaulting to the empty name. -/
def nameAttr (attrs : List (String × String)) : String :=
  match lookupAttr attrs "name" with
  | some s => s
  | none => ""

/-- Modelled from the spec: the orientation attribute, defaulting to
orthogonal when absent; a value outside the declared domain aborts with
SchemaError. -/
def parseOrientation (attrs : List (String × String)) : Except TmxError Orientation :=
  match lookupAttr attrs "orientation" with
  | none => .ok .orthogonal
  | some s =>
    if s == "orthogonal" then .ok .orthogonal
    else if s == "isometric" then .ok .isometric
    else if s == "staggered" then .ok .staggered
    else if s == "hexagonal" then .ok .hexagonal
    else .error .schemaError

/-- Find the first child with a given tag. -/
def findChild (tag : String) : XmlForest → Option XmlNode
  | .nil => none
  | .cons n rest => if n.tag == tag then some n else findChild tag rest

/-- The per-cell element nodes of a Plain-encoded data payload: the "tile"
children in document order, each contributing its "gid" attribute text. -/
def gidNodesOf : XmlForest → List GidNode
  | .nil => []
  | .cons n rest =>
    if n.tag == "tile" then
      { gidAttr := (match lookupAttr n.attrs "gid" with
                    | some s => s.data
                    | none => []) } :: gidNodesOf rest
    else gidNodesOf rest

/-- Modelled from the spec: the Tile-Data Decoder's dispatch on the declared
encoding tag — no tag means Plain, "csv" and "base64" (with its optional
compression tag) select the other branches, and an unknown encoding or
compression tag aborts with EncodingError. -/
def decodeLayerData (cb : Collab) (dataNode : XmlNode) (expected : Nat) :
    Except TmxError (List Nat) :=
  match lookupAttr dataNode.attrs "encoding" with
  | none => decodePlain (gidNodesOf dataNode.children) expected
  | some enc =>
    if enc == "csv" then decodeCSV dataNode.text expected
    else if enc == "base64" then
      match lookupAttr dataNode.attrs "compression" with
      | none => decodeBase64Payload cb .noComp dataNode.text expected
      | some cmp =>
        if cmp == "zlib" then decodeBase64Payload cb .zlib dataNode.text expected
        else if cmp == "gzip" then decodeBase64Payload cb .gzip dataNode.text expected
        else .error .encodingError
    else .error .encodingError

/-- Modelled from the spec: build one Object, dispatching on its
shape-indicating attributes and child elements — a gid attribute means
TileObject, polygon/polyline point lists mean those variants, an ellipse
marker means Ellipse, text content means TextObject, otherwise Rectangle. -/
def buildObject (node : XmlNode) : Except TmxError Object :=
  match optNatAttr node.attrs "id" 0 with
  | .error e => .error e
  | .ok idv =>
    match reqNatAttr node.attrs "x", reqNatAttr node.attrs "y" with
    | .ok x, .ok y =>
      let c : ObjectCommon := { id := idv, name := nameAttr node.attrs, x := x, y := y }
      match lookupAttr node.attrs "gid" with
      | some s =>
        match parseDecimal s.data with
        | none => .error .schemaError
        | some g => .ok (.tileObject c g)
      | none =>
        match findChild "polygon" node.children with
        | some p =>
          .ok (.polygon c (match lookupAttr p.attrs "points" with
                           | some s => s.data
                           | none => []))
        | none =>
          match findChild "polyline" node.children with
          | some p =>
            .ok (.polyline c (match lookupAttr p.attrs "points" with
                              | some s => s.data
                              | none => []))
          | none =>
            match optNatAttr node.attrs "width" 0, optNatAttr node.attrs "height" 0 with
            | .ok w, .ok h =>
              match findChild "ellipse" node.children with
              | some _ => .ok (.ellipse c w h)
              | none =>
                match findChild "text" node.children with
                | some t => .ok (.textObject c t.text)
                | none => .ok (.rectangle c w h)
            | .error e, _ => .error e
            | _, .error e => .error e
    | .error e, _ => .error e
    | _, .error e => .error e

/-- Build the ordered Object sequence of an ObjectLayer from its "object"
children, aborting on the first failure. -/
def buildObjects : XmlForest → Except TmxError (List Object)
  | .nil => .ok []
  | .cons n rest =>
    if n.tag == "object" then
      match buildObject n with
      | .error e => .error e
      | .ok o =>
        match buildObjects rest with
        | .error e => .error e
        | .ok os => .ok (o :: os)
    else buildObjects rest

/-- Modelled from the spec: build a Tileset from its attribute mapping (the
inline case, or the root of an external fragment after merging the firstGID
override): tile width/height are required and positive, spacing and margin
default to 0, the tile count is required, the column count defaults to 0. -/
def buildTileSetInline (firstgid : Nat) (attrs : List (String × String)) :
    Except TmxError TileSet :=
  match reqPosNatAttr attrs "tilewidth", reqPosNatAttr attrs "tileheight" with
  | .ok tw, .ok th =>
    match optNatAttr attrs "spacing" 0, optNatAttr attrs "margin" 0 with
    | .ok sp, .ok mg =>
      match reqNatAttr attrs "tilecount", optNatAttr attrs "columns" 0 with
      | .ok tc, .ok cols =>
        .ok { firstGID := firstgid, tileWidth := tw, tileHeight := th,
              spacing := sp, margin := mg, tileCount := tc, columns := cols }
      | .error e, _ => .error e
      | _, .error e => .error e
    | .error e, _ => .error e
    | _, .error e => .error e
  | .error e, _ => .error e
  | _, .error e => .error e

/-- Modelled from the spec: build one Tileset node — if it carries an
external-reference attribute, delegate to the file-access collaborator (an
unresolvable reference aborts with ReferenceError) and merge the firstGID
override from the referencing node; otherwise build it inline. -/
def buildTileSet (files : List (String × XmlNode)) (node : XmlNode) :
    Except TmxError TileSet :=
  match reqNatAttr node.attrs "firstgid" with
  | .error e => .error e
  | .ok fg =>
    match lookupAttr node.attrs "source" with
    | none => buildTileSetInline fg node.attrs
    | some src =>
      match lookupFile files src with
      | none => .error .referenceError
      | some ext =>
        if ext.tag == "tileset" then buildTileSetInline fg ext.attrs
        else .error .schemaError

/-- Build the ordered Tileset sequence of a map from its "tileset" children,
in document order, aborting on the first failure. -/
def buildTileSets (files : List (String × XmlNode)) : XmlForest → Except TmxError (List TileSet)
  | .nil => .ok []
  | .cons n rest =>
    if n.tag == "tileset" then
      match buildTileSet files n with
      | .error e => .error e
      | .ok t =>
        match buildTileSets files rest with
        | .error e => .error e
        | .ok ts => .ok (t :: ts)
    else buildTileSets files rest

mutual
/-- Modelled from the spec: dispatch one layer node on its element kind to
build the matching Layer variant (none for a non-layer element): a "layer"
node decodes its data payload against its declared dimensions (defaulting to
the map's), an "objectgroup" builds its objects, an "imagelayer" requires an
image child with a source, and a "group" recurses into its children
preserving document order. -/
def buildLayer (cb : Collab) (files : List (String × XmlNode)) (mw mh : Nat) :
    XmlNode → Except TmxError (Option Layer)
  | .elem tag attrs _ children =>
    if tag == "layer" then
      match optNatAttr attrs "width" mw, optNatAttr attrs "height" mh with
      | .ok w, .ok h =>
        match findChild "data" children with
        | none => .error .schemaError
        | some dataNode =>
          match decodeLayerData cb dataNode (w * h) with
          | .error e => .error e
          | .ok words =>
            .ok (some (.tileLayer { name := nameAttr attrs, visible := visibleAttr attrs,
                                    width := w, height := h,
                                    cells := words.map decodeCell }))
      | .error e, _ => .error e
      | _, .error e => .error e
    else if tag == "objectgroup" then
      match buildObjects children with
      | .error e => .error e
      | .ok objs =>
        .ok (some (.objectLayer { name := nameAttr attrs, visible := visibleAttr attrs,
                                  objects := objs }))
    else if tag == "imagelayer" then
      match findChild "image" children with
      | none => .error .schemaError
      | some img =>
        match lookupAttr img.attrs "source" with
        | none => .error .schemaError
        | some src =>
          .ok (some (.imageLayer { name := nameAttr attrs, visible := visibleAttr attrs,
                                   image := { source := src } }))
    else if tag == "group" then
      match buildLayers cb files mw mh children with
      | .error e => .error e
      | .ok cs => .ok (some (.groupLayer (nameAttr attrs) (visibleAttr attrs) cs))
    else .ok none
/-- Build the ordered layer sequence of a map or group from its children in
document order, skipping non-layer elements, aborting on the first failure. -/
def buildLayers (cb : Collab) (files : List (String × XmlNode)) (mw mh : Nat) :
    XmlForest → Except TmxError LayerForest
  | .nil => .ok .nil
  | .cons n rest =>
    match buildLayer cb files mw mh n with
    | .error e => .error e
    | .ok none => buildLayers cb files mw mh rest
    | .ok (some l) =>
      match buildLayers cb files mw mh rest with
      | .error e => .error e
      | .ok ls => .ok (.cons l ls)
end

/-- Modelled from the spec: the root Map entity — orientation, grid and tile
dimensions, the ordered Tileset sequence and the ordered top-level layer
tree. -/
structure Map where
  orientation : Orientation
  width : Nat
  height : Nat
  tileWidth : Nat
  tileHeight : Nat
  tilesets : List TileSet
  layers : LayerForest

/-- Modelled from the spec: the Model Builder — consume the generic node
tree of the whole document and produce a fully populated Map or fail: the
root must be a map element, its grid and tile dimensions are required
positive integers, orientation defaults to orthogonal, then the Tileset
sequence and the layer tree are built in document order. -/
def parseMapNode (cb : Collab) (files : List (String × XmlNode)) :
    XmlNode → Except TmxError Map
  | .elem tag attrs _ children =>
    if tag == "map" then
      match parseOrientation attrs with
      | .error e => .error e
      | .ok orient =>
        match reqPosNatAttr attrs "width", reqPosNatAttr attrs "height" with
        | .ok w, .ok h =>
          match reqPosNatAttr attrs "tilewidth", reqPosNatAttr attrs "tileheight" with
          | .ok tw, .ok th =>
            match buildTileSets files children with
            | .error e => .error e
            | .ok tss =>
              match buildLayers cb files w h children with
              | .error e => .error e
              | .ok lys =>
                .ok { orientation := orient, width := w, height := h,
                      tileWidth := tw, tileHeight := th, tilesets := tss,
                      layers := lys }
          | .error e, _ => .error e
          | _, .error e => .error e
        | .error e, _ => .error e
        | _, .error e => .error e
    else .error .schemaError

/-- Modelled from the spec: the single entry point (`parseMapFile`) behind
the XML collaborator — a collaborator failure is the SyntaxError kind, and
otherwise the Model Builder runs on the delivered tree; the result is either
one terminal failure or a fully populated Map, never both. -/
def parseMapFromXml (cb : Collab) (files : List (String × XmlNode))
    (xmlResult : Option XmlNode) : Except TmxError Map :=
  match xmlResult with
  | none => .error .xmlError
  | some root => parseMapNode cb files root

mutual
/-- The per-layer shape invariant of a built Map: every TileLayer holds
exactly width × height cells. -/
def layerCellsOk : Layer → Prop
  | .tileLayer d => d.cells.length = d.width * d.height
  | .objectLayer _ => True
  | .imageLayer _ => True
  | .groupLayer _ _ children => forestCellsOk children
/-- The shape invariant over a sibling sequence. -/
def forestCellsOk : LayerForest → Prop
  | .nil => True
  | .cons l rest => layerCellsOk l ∧ forestCellsOk rest
end

mutual
/-- Every Object held by any ObjectLayer of a layer tree, in order. -/
def collectObjects : Layer → List Object
  | .tileLayer _ => []
  | .objectLayer d => d.objects
  | .imageLayer _ => []
  | .groupLayer _ _ children => collectForestObjects children
/-- The objects of a sibling sequence, in order. -/
def collectForestObjects : LayerForest → List Object
  | .nil => []
  | .cons l rest => collectObjects l ++ collectForestObjects rest
end

/-- A collaborator pair whose calls always fail (adequate for documents that
use no Base64 payload). -/
def cbNone : Collab :=
  { base64Decode := fun _ => none, decompress := fun _ _ => none }

/-- A concrete collaborator pair for the cross-encoding witnesses: the text
radix always decodes to the little-endian image of the sequence 1, 2, 3 and
decompression echoes its input. -/
def cbDemo : Collab :=
  { base64Decode := fun _ => some (toLEBytes [1, 2, 3])
    decompress := fun _ bytes => some bytes }

/-- First tileset of the overlapping counterexample sequence: its 100 tiles
cover raw ids 1 through 100. -/
def overlapT0 : TileSet :=
  { firstGID := 1, tileWidth := 16, tileHeight := 16, spacing := 0,
    margin := 0, tileCount := 100, columns := 10 }

/-- Second tileset of the overlapping counterexample sequence: its range
starts at raw id 10, inside the first tileset's range. -/
def overlapT1 : TileSet :=
  { firstGID := 10, tileWidth := 16, tileHeight := 16, spacing := 0,
    margin := 0, tileCount := 5, columns := 5 }

/-- A two-tileset sequence sorted ascending by firstGID whose owned ranges
overlap. -/
def overlappingTileSets : List TileSet := [overlapT0, overlapT1]

/-- A concrete well-formed document tree: a 2×1 orthogonal map holding one
inline tileset, one CSV tile layer and one object layer with a tile object
and a rectangle. -/
def demoMapXml : XmlNode :=
  .elem "map"
    [("width", "2"), ("height", "1"), ("tilewidth", "16"), ("tileheight", "16")] []
    (.cons (.elem "tileset"
        [("firstgid", "1"), ("tilewidth", "16"), ("tileheight", "16"),
         ("tilecount", "8")] [] .nil)
      (.cons (.elem "layer" [("name", "ground")] []
          (.cons (.elem "data" [("encoding", "csv")] ("1,2".data) .nil) .nil))
        (.cons (.elem "objectgroup" [("name", "objs")] []
            (.cons (.elem "object"
                [("id", "1"), ("x", "0"), ("y", "0"), ("gid", "5")] [] .nil)
              (.cons (.elem "object"
                  [("id", "2"), ("x", "3"), ("y", "4"), ("width", "10"),
                   ("height", "10")] [] .nil) .nil)))
          .nil)))

/-- The Map value the builder produces from `demoMapXml`. -/
def demoMap : Map :=
  { orientation := .orthogonal, width := 2, height := 1,
    tileWidth := 16, tileHeight := 16,
    tilesets := [{ firstGID := 1, tileWidth := 16, tileHeight := 16,
                   spacing := 0, margin := 0, tileCount := 8, columns := 0 }],
    layers :=
      .cons
        (.tileLayer
          { name := "ground", visible := true, width := 2, height := 1,
            cells := [{ tileId := 1, hflip := false, vflip := false, dflip := false },
                      { tileId := 2, hflip := false, vflip := false, dflip := false }] })
        (.cons
          (.objectLayer
            { name := "objs", visible := true,
              objects := [.tileObject { id := 1, name := "", x := 0, y := 0 } 5,
                          .rectangle { id := 2, name := "", x := 3, y := 4 } 10 10] })
          .nil) }

/-!
## Theorems

First the supporting lemmas about decimal rendering, tokenizing and the
little-endian word serialization, then the per-claim theorems.
-/

/-- The digit characters produced by `digitCharOf` carry the expected code
point. -/
theorem digitCharOf_toNat (d : Nat) (h : d < 10) : (digitCharOf d).toNat = 48 + d := by
  interval_cases d <;> decide

/-- Every character `natDigitsAux` emits is a decimal digit. -/
theorem natDigitsAux_digits (fuel : Nat) :
    ∀ n, n < fuel → ∀ c ∈ natDigitsAux fuel n, isDigitChar c = true := by
  induction fuel with
  | zero => intro n h; omega
  | succ fuel ih =>
    intro n h c hc
    unfold natDigitsAux at hc
    by_cases h10 : n < 10
    · simp [h10] at hc
      subst hc
      simp [isDigitChar, digitCharOf_toNat n h10]
      omega
    · simp [h10] at hc
      rcases hc with hc | hc
      · exact ih (n / 10) (by omega) c hc
      · subst hc
        have : n % 10 < 10 := Nat.mod_lt _ (by omega)
        simp [isDigitChar, digitCharOf_toNat _ this]
        omega

/-- `natDigitsAux` never emits an empty rendering (given enough fuel). -/
theorem natDigitsAux_ne_nil (fuel n : Nat) (h : n < fuel) :
    natDigitsAux fuel n ≠ [] := by
  cases fuel with
  | zero => omega
  | succ fuel =>
    unfold natDigitsAux
    by_cases h10 : n < 10 <;> simp [h10]

/-- Appending one digit multiplies the accumulated value by ten. -/
theorem digitsVal_append_digit (cs : List Char) (c : Char) :
    digitsVal (cs ++ [c]) = 10 * digitsVal cs + (c.toNat - 48) := by
  simp [digitsVal, List.foldl_append]
  ring

/-- The value read back from `natDigitsAux` is the rendered number. -/
theorem digitsVal_natDigitsAux (fuel : Nat) :
    ∀ n, n < fuel → digitsVal (natDigitsAux fuel n) = n := by
  induction fuel with
  | zero => intro n h; omega
  | succ fuel ih =>
    intro n h
    unfold natDigitsAux
    by_cases h10 : n < 10
    · simp [h10, digitsVal, digitCharOf_toNat n h10]
    · simp only [h10, if_false]
      rw [digitsVal_append_digit, ih (n / 10) (by omega),
        digitCharOf_toNat (n % 10) (Nat.mod_lt _ (by omega))]
      omega

/-- Parsing the decimal rendering of a number recovers the number. -/
theorem parseDecimal_natDigits (n : Nat) : parseDecimal (natDigits n) = some n := by
  unfold parseDecimal natDigits
  have hne := natDigitsAux_ne_nil (n + 1) n (by omega)
  have hdig := natDigitsAux_digits (n + 1) n (by omega)
  have hval := digitsVal_natDigitsAux (n + 1) n (by omega)
  simp only [List.isEmpty_eq_true, hne, if_false]
  rw [if_pos (by simpa [List.all_eq_true] using hdig)]
  exact congrArg some hval

/-- A decimal digit is never a CSV separator. -/
theorem digit_not_sep (c : Char) (h : isDigitChar c = true) : isSepChar c = false := by
  simp [isDigitChar] at h
  simp [isSepChar]
  omega

/-- `splitAux` walks through a separator-free token, pushing it onto the
accumulator. -/
theorem splitAux_token (tok : List Char) :
    ∀ cs acc, (∀ c ∈ tok, isSepChar c = false) →
      splitAux (tok ++ cs) acc = splitAux cs (tok.reverse ++ acc) := by
  induction tok with
  | nil => intro cs acc _; simp
  | cons c tok ih =>
    intro cs acc h
    have hc : isSepChar c = false := h c (by simp)
    simp only [List.cons_append, splitAux, hc, Bool.false_eq_true, if_false]
    exact (ih cs (c :: acc) (fun x hx => h x (by simp [hx]))).trans (by simp)

/-- Splitting the canonical CSV rendering recovers the digit tokens. -/
theorem splitTokens_renderCSV (ws : List Nat) :
    splitTokens (renderCSV ws) = ws.map natDigits := by
  induction ws with
  | nil => rfl
  | cons w ws ih =>
    have hdig : ∀ c ∈ natDigits w, isSepChar c = false := fun c hc =>
      digit_not_sep c (natDigitsAux_digits (w + 1) w (by omega) c hc)
    have hne : natDigits w ≠ [] := natDigitsAux_ne_nil (w + 1) w (by omega)
    cases ws with
    | nil =>
      unfold splitTokens renderCSV
      rw [show natDigits w = natDigits w ++ [] by simp, splitAux_token _ _ _ hdig]
      simp [splitAux, hne]
    | cons v ws' =>
      unfold splitTokens renderCSV
      rw [splitAux_token _ _ _ hdig]
      have hsep : isSepChar ',' = true := by decide
      simp only [splitAux, hsep, if_true, List.append_nil, List.reverse_reverse,
        List.isEmpty_eq_true, List.reverse_eq_nil_iff, hne, if_false]
      rw [show splitAux (renderCSV (v :: ws')) [] = splitTokens (renderCSV (v :: ws')) from rfl, ih]
      simp

/-- Parsing back a list of decimal renderings recovers the list. -/
theorem parseAllDecimals_map_natDigits (ws : List Nat) :
    parseAllDecimals (ws.map natDigits) = some ws := by
  induction ws with
  | nil => rfl
  | cons w ws ih => simp [parseAllDecimals, parseDecimal_natDigits, ih]

/-- Decoding the canonical CSV payload of a sequence recovers the sequence. -/
theorem decodeCSV_renderCSV (ws : List Nat) :
    decodeCSV (renderCSV ws) ws.length = .ok ws := by
  unfold decodeCSV
  rw [splitTokens_renderCSV, parseAllDecimals_map_natDigits]
  simp

/-- Decoding the canonical Plain payload of a sequence recovers the
sequence. -/
theorem decodePlain_plainNodesOf (ws : List Nat) :
    decodePlain (plainNodesOf ws) ws.length = .ok ws := by
  unfold decodePlain plainNodesOf
  rw [show List.map GidNode.gidAttr (ws.map fun w => { gidAttr := natDigits w }) =
      ws.map natDigits by simp [Function.comp]]
  rw [parseAllDecimals_map_natDigits]
  simp

/-- Reading little-endian words back from the serialization of a sequence of
32-bit words recovers the sequence. -/
theorem bytesToWords_toLEBytes (ws : List Nat) (h : ∀ w ∈ ws, w < 2 ^ 32) :
    bytesToWords (toLEBytes ws) = some ws := by
  induction ws with
  | nil => rfl
  | cons w ws ih =>
    have hw : w < 2 ^ 32 := h w (by simp)
    unfold toLEBytes bytesToWords
    rw [ih (fun x hx => h x (by simp [hx]))]
    have : w % 256 + 256 * (w / 256 % 256) + 65536 * (w / 65536 % 256) +
        16777216 * (w / 16777216 % 256) = w := by omega
    rw [this]

/-- A non-overlapping sequence stays non-overlapping after dropping its
head. -/
theorem nonOverlapping_tail (t : TileSet) (rest : List TileSet)
    (h : nonOverlapping (t :: rest)) : nonOverlapping rest := by
  cases rest with
  | nil => trivial
  | cons u rest' => exact h.2

/-- In a non-overlapping sequence, every later tileset starts at or after the
end of the head tileset's owned range. -/
theorem nonOverlapping_head_le (t : TileSet) (rest : List TileSet)
    (h : nonOverlapping (t :: rest)) :
    ∀ x ∈ rest, t.firstGID + t.tileCount ≤ x.firstGID := by
  induction rest generalizing t with
  | nil => intro x hx; simp at hx
  | cons u rest' ih =>
    intro x hx
    rcases List.mem_cons.mp hx with rfl | hx'
    · exact h.1
    · exact le_trans (le_trans h.1 (Nat.le_add_right _ _)) (ih u h.2 x hx')

/-- When every tileset starts beyond the raw id, no owner is found. -/
theorem findOwner_none (raw : Nat) (ts : List TileSet)
    (h : ∀ x ∈ ts, raw < x.firstGID) : findOwner raw ts = none := by
  induction ts with
  | nil => rfl
  | cons u rest ih =>
    have hu : raw < u.firstGID := h u (by simp)
    unfold findOwner
    rw [ih (fun x hx => h x (by simp [hx]))]
    simp [Nat.not_le.mpr hu]

/-- In a non-overlapping sequence, a raw id inside the owned range of the
tileset at position `i` makes `findOwner` return exactly that position and
tileset. -/
theorem findOwner_at (ts : List TileSet) :
    ∀ (i : Nat) (t : TileSet) (raw : Nat), nonOverlapping ts → ts[i]? = some t →
      t.firstGID ≤ raw → raw < t.firstGID + t.tileCount →
      findOwner raw ts = some (i, t) := by
  induction ts with
  | nil => intro i t raw _ hi; simp at hi
  | cons u rest ih =>
    intro i t raw hord hi hlo hhi
    cases i with
    | zero =>
      have ht : u = t := by simpa using hi
      subst ht
      have hnone : findOwner raw rest = none :=
        findOwner_none raw rest (fun x hx =>
          lt_of_lt_of_le hhi (nonOverlapping_head_le u rest hord x hx))
      unfold findOwner
      rw [hnone]
      simp [hlo]
    | succ j =>
      have hj : rest[j]? = some t := by simpa using hi
      have := ih j t raw (nonOverlapping_tail u rest hord) hj hlo hhi
      unfold findOwner
      rw [this]

/-- The tileset at a position of the sequence is a member of the sequence. -/
theorem mem_of_getElem? (ts : List TileSet) (i : Nat) (t : TileSet)
    (h : ts[i]? = some t) : t ∈ ts := by
  induction ts generalizing i with
  | nil => simp at h
  | cons u rest ih =>
    cases i with
    | zero => simp at h; simp [h]
    | succ j =>
      have : rest[j]? = some t := by simpa using h
      exact List.mem_cons_of_mem u (ih j this)

/-- C1 (amended): over a well-formed Tileset sequence — positive firstGIDs
and pairwise non-overlapping owned ranges, which in particular is sorted
ascending by firstGID — every packed tile reference whose raw id lies in
`[firstGID(t), firstGID(t) + tileCount(t))` for the tileset `t` at position
`i` resolves to exactly that tileset, with local index raw id − firstGID(t). -/
theorem getTileSetFromGID_resolves (ts : List TileSet) (gid i : Nat) (t : TileSet)
    (hord : nonOverlapping ts) (hpos : ∀ u ∈ ts, 1 ≤ u.firstGID)
    (hi : ts[i]? = some t)
    (hlo : t.firstGID ≤ rawId gid) (hhi : rawId gid < t.firstGID + t.tileCount) :
    getTileSetFromGID ts gid = .found i (rawId gid - t.firstGID) := by
  have htmem : t ∈ ts := mem_of_getElem? ts i t hi
  have hraw0 : rawId gid ≠ 0 := by
    have := hpos t htmem
    omega
  have hnotall : ¬ (ts.all fun u => u.firstGID + u.tileCount < rawId gid) = true := by
    simp only [List.all_eq_true, decide_eq_true_eq]
    intro hall
    have := hall t htmem
    omega
  unfold getTileSetFromGID
  simp only [hraw0, if_false, hnotall, if_false]
  rw [findOwner_at ts i t (rawId gid) hord hi hlo hhi]
  simp

/-- C1 (counterexample): with overlapping owned ranges — allowed by the
claim, which only demands the sequence be sorted ascending by firstGID — a
raw id inside the first tileset's interval resolves to the second tileset,
not the first: the claim as stated fails. -/
theorem c1_counterexample :
    overlappingTileSets[0]? = some overlapT0 ∧
    overlappingTileSets.map TileSet.firstGID = [1, 10] ∧
    overlapT0.firstGID ≤ rawId 50 ∧
    rawId 50 < overlapT0.firstGID + overlapT0.tileCount ∧
    getTileSetFromGID overlappingTileSets 50 ≠
      .found 0 (rawId 50 - overlapT0.firstGID) ∧
    getTileSetFromGID overlappingTileSets 50 = .found 1 40 := by
  decide

/-- C1 witness: the amended theorem applied to the spec's worked three-tileset
sequence at packed reference 45, owned by the tileset at position 1. -/
theorem getTileSetFromGID_resolves_witness :
    getTileSetFromGID demoTileSets 45 = .found 1 (rawId 45 - 10) := by
  have hord : nonOverlapping demoTileSets := by
    simp only [demoTileSets, nonOverlapping]
    refine ⟨by norm_num, by norm_num, trivial⟩
  exact getTileSetFromGID_resolves demoTileSets 45 1
    { firstGID := 10, tileWidth := 16, tileHeight := 16, spacing := 0,
      margin := 0, tileCount := 39, columns := 8 }
    hord (by decide) (by decide) (by decide) (by decide)

/-- C2: on the spec's worked example — firstGIDs 1, 10, 50 with tile counts
8, 39, 10 — raw id 45 resolves to the second tileset with local index 35,
raw id 60 to the third with local index 10, raw id 5 to the first with local
index 4, and raw id 100 fails with RangeError rather than clamping. -/
theorem getTileSetFromGID_examples :
    getTileSetFromGID demoTileSets 45 = .found 1 35 ∧
    getTileSetFromGID demoTileSets 60 = .found 2 10 ∧
    getTileSetFromGID demoTileSets 5 = .found 0 4 ∧
    getTileSetFromGID demoTileSets 100 = .rangeError := by
  decide

/-- C4: decoding a packed 32-bit value splits it into the low-29-bit local
tile id and the top-3-bit orientation flags — the id is the raw id, is below
2^29, and the value is exactly the flag bits plus the id; in particular the
value with raw id 5 and only the horizontal-flip bit set decodes to id 5
with horizontal flip true and the other two flags false. -/
theorem decodeCell_split :
    (∀ gid, gid < 2 ^ 32 →
      (decodeCell gid).tileId = rawId gid ∧ (decodeCell gid).tileId < 2 ^ 29 ∧
      gid = flagBitsVal (decodeCell gid) + (decodeCell gid).tileId) ∧
    decodeCell (2 ^ 31 + 5) =
      { tileId := 5, hflip := true, vflip := false, dflip := false } := by
  constructor
  · intro gid h
    refine ⟨rfl, ?_, ?_⟩
    · simp only [decodeCell, rawId]
      omega
    · simp only [decodeCell, flagBitsVal, rawId, beq_iff_eq]
      split <;> split <;> split <;> omega
  · decide

/-- C4 witness: the split theorem applied at the concrete packed value
2^30 + 7 (vertical flip set, raw id 7). -/
theorem decodeCell_split_witness :
    (decodeCell (2 ^ 30 + 7)).tileId = rawId (2 ^ 30 + 7) ∧
    (decodeCell (2 ^ 30 + 7)).tileId < 2 ^ 29 ∧
    2 ^ 30 + 7 = flagBitsVal (decodeCell (2 ^ 30 + 7)) + (decodeCell (2 ^ 30 + 7)).tileId :=
  decodeCell_split.1 (2 ^ 30 + 7) (by norm_num)

/-- C6: a packed reference whose raw id is 0 — whatever its three flag bits —
resolves to no tileset: the resolver reports the empty cell. -/
theorem getTileSetFromGID_zero (ts : List TileSet) (gid : Nat)
    (h : rawId gid = 0) : getTileSetFromGID ts gid = .empty := by
  unfold getTileSetFromGID
  simp [h]

/-- C6 witness: the zero theorem applied to the packed value with raw id 0
and all three flag bits set, over the worked tileset sequence. -/
theorem getTileSetFromGID_zero_witness :
    getTileSetFromGID demoTileSets (2 ^ 31 + 2 ^ 30 + 2 ^ 29) = .empty :=
  getTileSetFromGID_zero demoTileSets (2 ^ 31 + 2 ^ 30 + 2 ^ 29) (by decide)

mutual
/-- Traversing a layer with any visitor folds its capabilities, each matched
to the concrete variant, over the layer's leaves in depth-first, document
order — a GroupLayer contributes no invocation of its own. -/
theorem visitLayer_fold {σ : Type} (v : LayerVisitor σ) (s : σ) (l : Layer) :
    visitLayer v s l = (dfsItems l).foldl (dispatchLeaf v) s := by
  cases l with
  | tileLayer d => simp [visitLayer, dfsItems, dispatchLeaf]
  | objectLayer d => simp [visitLayer, dfsItems, dispatchLeaf]
  | imageLayer d => simp [visitLayer, dfsItems, dispatchLeaf]
  | groupLayer n vis c =>
    simp only [visitLayer, dfsItems]
    exact visitForest_fold v s c
/-- Traversing a sibling sequence with any visitor folds its capabilities
over the sequence's leaves, left to right. -/
theorem visitForest_fold {σ : Type} (v : LayerVisitor σ) (s : σ) (f : LayerForest) :
    visitForest v s f = (dfsForestItems f).foldl (dispatchLeaf v) s := by
  cases f with
  | nil => simp [visitForest, dfsForestItems]
  | cons l rest =>
    simp only [visitForest, dfsForestItems]
    rw [visitLayer_fold, visitForest_fold, List.foldl_append]
end

/-- C3: the traversal visits the layer tree depth-first in document order —
for every visitor, traversal equals folding the capability matching each
leaf's concrete variant over the depth-first leaf sequence, and a GroupLayer
is never itself dispatched as a leaf (it contributes no entry); on the
example tree GroupLayer[TileLayer A, GroupLayer[ObjectLayer B, ImageLayer C],
TileLayer D] the capabilities fire exactly in the order A (tile), B (object),
C (image), D (tile). -/
theorem visitLayers_dfs_order :
    (∀ (σ : Type) (v : LayerVisitor σ) (s : σ) (l : Layer),
      visitLayer v s l = (dfsItems l).foldl (dispatchLeaf v) s) ∧
    visitLayer recorder [] exampleTree =
      [.tileEvent "A", .objectEvent "B", .imageEvent "C", .tileEvent "D"] :=
  ⟨fun _ => visitLayer_fold, by rfl⟩

/-- A byte buffer whose length is not a multiple of 4 has no little-endian
word reading. -/
theorem bytesToWords_none_of_mod (bytes : List Nat) :
    bytes.length % 4 ≠ 0 → bytesToWords bytes = none := by
  induction bytes using bytesToWords.induct with
  | case1 => intro h; simp at h
  | case2 b0 b1 b2 b3 rest ws heq ih =>
    intro h
    have h4 : rest.length % 4 ≠ 0 := by
      simp only [List.length_cons] at h
      omega
    rw [ih h4] at heq
    exact absurd heq (by simp)
  | case3 b0 b1 b2 b3 rest heq ih =>
    intro _
    unfold bytesToWords
    rw [heq]
  | case4 bytes h1 h2 =>
    intro _
    unfold bytesToWords
    cases bytes with
    | nil => simp at h1
    | cons a t =>
      cases t with
      | nil => rfl
      | cons a2 t2 =>
        cases t2 with
        | nil => rfl
        | cons a3 t3 =>
          cases t3 with
          | nil => rfl
          | cons a4 t4 => exact absurd rfl (h2 a a2 a3 a4 t4)

/-- A successful CSV decode returns exactly the parsed token values, in
exactly the expected count. -/
theorem decodeCSV_ok (content : List Char) (expected : Nat) (ws : List Nat)
    (hok : decodeCSV content expected = .ok ws) :
    parseAllDecimals (splitTokens content) = some ws ∧ ws.length = expected := by
  unfold decodeCSV at hok
  split at hok
  · exact absurd hok (by simp)
  · split at hok
    · rename_i parsed hp hl
      exact ⟨by rw [hp, (by simpa using hok : parsed = ws)], by
        rw [← (by simpa using hok : parsed = ws)]; exact hl⟩
    · exact absurd hok (by simp)

/-- A successful Plain decode returns exactly the parsed gid attributes, in
exactly the expected count. -/
theorem decodePlain_ok (nodes : List GidNode) (expected : Nat) (ws : List Nat)
    (hok : decodePlain nodes expected = .ok ws) :
    parseAllDecimals (List.map GidNode.gidAttr nodes) = some ws ∧
    ws.length = expected := by
  unfold decodePlain at hok
  split at hok
  · exact absurd hok (by simp)
  · split at hok
    · rename_i parsed hp hl
      exact ⟨by rw [hp, (by simpa using hok : parsed = ws)], by
        rw [← (by simpa using hok : parsed = ws)]; exact hl⟩
    · exact absurd hok (by simp)

/-- A successfully interpreted byte buffer holds exactly the expected number
of words. -/
theorem interpretByteBuffer_ok (bytes : List Nat) (expected : Nat) (ws : List Nat)
    (hok : interpretByteBuffer bytes expected = .ok ws) : ws.length = expected := by
  unfold interpretByteBuffer at hok
  split at hok
  · exact absurd hok (by simp)
  · split at hok
    · rename_i parsed hw hl
      rw [← (by simpa using hok : parsed = ws)]
      exact hl
    · exact absurd hok (by simp)

/-- A successful Base64 decode holds exactly the expected number of words. -/
theorem decodeBase64Payload_ok_length (cb : Collab) (comp : Compression)
    (content : List Char) (expected : Nat) (ws : List Nat)
    (hok : decodeBase64Payload cb comp content expected = .ok ws) :
    ws.length = expected := by
  unfold decodeBase64Payload at hok
  split at hok
  · exact absurd hok (by simp)
  · split at hok
    · exact interpretByteBuffer_ok _ _ _ hok
    · split at hok
      · exact absurd hok (by simp)
      · exact interpretByteBuffer_ok _ _ _ hok

/-- C5: the Tile-Data Decoder rejects any payload whose decoded count
differs from the expected `width * height`, with DecodeError, and never
truncates or pads: a successful CSV or Plain decode returns exactly the
parsed integers and exactly the expected count, a parsed sequence of any
other length fails; a Base64 byte buffer whose length is not a multiple of 4
fails, as does a word sequence of the wrong count; a successful Base64
decode has exactly the expected count. -/
theorem decoder_count_strict (expected : Nat) :
    (∀ content ws, parseAllDecimals (splitTokens content) = some ws →
      ws.length ≠ expected → decodeCSV content expected = .error .decodeError) ∧
    (∀ content ws, decodeCSV content expected = .ok ws →
      parseAllDecimals (splitTokens content) = some ws ∧ ws.length = expected) ∧
    (∀ nodes ws, parseAllDecimals (List.map GidNode.gidAttr nodes) = some ws →
      ws.length ≠ expected → decodePlain nodes expected = .error .decodeError) ∧
    (∀ nodes ws, decodePlain nodes expected = .ok ws →
      parseAllDecimals (List.map GidNode.gidAttr nodes) = some ws ∧
      ws.length = expected) ∧
    (∀ bytes, bytes.length % 4 ≠ 0 →
      interpretByteBuffer bytes expected = .error .decodeError) ∧
    (∀ bytes ws, bytesToWords bytes = some ws → ws.length ≠ expected →
      interpretByteBuffer bytes expected = .error .decodeError) ∧
    (∀ cb comp content ws, decodeBase64Payload cb comp content expected = .ok ws →
      ws.length = expected) ∧
    (∀ (cb : Collab) content zbytes bytes, cb.base64Decode content = some zbytes →
      cb.decompress .zlib zbytes = some bytes → bytes.length % 4 ≠ 0 →
      decodeBase64Payload cb .zlib content expected = .error .decodeError) := by
  refine ⟨?_, ?_, ?_, ?_, ?_, ?_, ?_, ?_⟩
  · intro content ws hp hlen
    unfold decodeCSV
    rw [hp]
    simp [hlen]
  · exact fun content ws hok => decodeCSV_ok content expected ws hok
  · intro nodes ws hp hlen
    unfold decodePlain
    rw [hp]
    simp [hlen]
  · exact fun nodes ws hok => decodePlain_ok nodes expected ws hok
  · intro bytes h
    unfold interpretByteBuffer
    rw [bytesToWords_none_of_mod bytes h]
  · intro bytes ws hw hlen
    unfold interpretByteBuffer
    rw [hw]
    simp [hlen]
  · exact fun cb comp content ws hok =>
      decodeBase64Payload_ok_length cb comp content expected ws hok
  · intro cb content zbytes bytes hb hz hlen
    unfold decodeBase64Payload
    rw [hb]
    simp only [hz]
    unfold interpretByteBuffer
    rw [bytesToWords_none_of_mod bytes hlen]

/-- C5 witness: the strictness theorem applied to a 4×3 layer (12 cells
expected) whose CSV payload parses to 11 integers, and to one parsing to 13
integers: both fail with DecodeError. -/
theorem decoder_count_strict_witness :
    decodeCSV (renderCSV [1, 2, 3, 4, 5, 6, 7, 8, 9, 10, 11]) (4 * 3) =
      .error .decodeError ∧
    decodeCSV (renderCSV [1, 2, 3, 4, 5, 6, 7, 8, 9, 10, 11, 12, 13]) (4 * 3) =
      .error .decodeError :=
  ⟨(decoder_count_strict (4 * 3)).1 _ [1, 2, 3, 4, 5, 6, 7, 8, 9, 10, 11]
      (by decide) (by decide),
    (decoder_count_strict (4 * 3)).1 _ [1, 2, 3, 4, 5, 6, 7, 8, 9, 10, 11, 12, 13]
      (by decide) (by decide)⟩

/-- C7: whenever a Plain payload, a CSV payload and a Base64+zlib payload all
represent the same integer sequence — the Plain nodes' gid attributes and
the CSV tokens parse to it, and the Base64 text decodes and decompresses to
its little-endian serialization — the Tile-Data Decoder produces that same
ordered sequence of packed references from each of the three payloads. -/
theorem crossEncoding_equivalence (ws : List Nat) (hw : ∀ w ∈ ws, w < 2 ^ 32)
    (plainNodes : List GidNode) (csvContent : List Char) (cb : Collab)
    (b64Content : List Char) (zbytes : List Nat)
    (hp : parseAllDecimals (List.map GidNode.gidAttr plainNodes) = some ws)
    (hc : parseAllDecimals (splitTokens csvContent) = some ws)
    (hb : cb.base64Decode b64Content = some zbytes)
    (hz : cb.decompress .zlib zbytes = some (toLEBytes ws)) :
    decodePlain plainNodes ws.length = .ok ws ∧
    decodeCSV csvContent ws.length = .ok ws ∧
    decodeBase64Payload cb .zlib b64Content ws.length = .ok ws := by
  refine ⟨?_, ?_, ?_⟩
  · unfold decodePlain
    rw [hp]
    simp
  · unfold decodeCSV
    rw [hc]
    simp
  · unfold decodeBase64Payload
    rw [hb]
    simp only [hz]
    unfold interpretByteBuffer
    rw [bytesToWords_toLEBytes ws hw]
    simp

/-- C7 witness: the equivalence theorem applied to the sequence 1, 2, 3 with
its canonical Plain and CSV payloads and the demo collaborators. -/
theorem crossEncoding_equivalence_witness :
    decodePlain (plainNodesOf [1, 2, 3]) 3 = .ok [1, 2, 3] ∧
    decodeCSV (renderCSV [1, 2, 3]) 3 = .ok [1, 2, 3] ∧
    decodeBase64Payload cbDemo .zlib [] 3 = .ok [1, 2, 3] :=
  crossEncoding_equivalence [1, 2, 3] (by decide) (plainNodesOf [1, 2, 3])
    (renderCSV [1, 2, 3]) cbDemo [] (toLEBytes [1, 2, 3])
    (by decide) (by decide) rfl rfl

/-- C8: round-trip — serializing a sequence of 32-bit words little-endian,
compressing it with zlib and encoding the result as Base64 text, then
running the Tile-Data Decoder on that payload under the base64 encoding and
zlib compression tags, returns exactly the original sequence (the encode
side is expressed through the collaborator contracts: the Base64 text
decodes back to the compressed buffer and zlib decompression inverts the
compression). -/
theorem base64_zlib_roundTrip (ws : List Nat) (hw : ∀ w ∈ ws, w < 2 ^ 32)
    (cb : Collab) (compress : List Nat → List Nat)
    (b64enc : List Nat → List Char)
    (hb : cb.base64Decode (b64enc (compress (toLEBytes ws))) =
      some (compress (toLEBytes ws)))
    (hz : cb.decompress .zlib (compress (toLEBytes ws)) = some (toLEBytes ws)) :
    decodeBase64Payload cb .zlib (b64enc (compress (toLEBytes ws))) ws.length =
      .ok ws := by
  unfold decodeBase64Payload
  rw [hb]
  simp only [hz]
  unfold interpretByteBuffer
  rw [bytesToWords_toLEBytes ws hw]
  simp

/-- C8 witness: the round-trip theorem applied to the sequence 1, 2, 3 with
an identity compressor, a trivial text radix, and the demo collaborators. -/
theorem base64_zlib_roundTrip_witness :
    decodeBase64Payload cbDemo .zlib
        ((fun _ => ([] : List Char)) ((fun bytes => bytes) (toLEBytes [1, 2, 3])))
        3 = .ok [1, 2, 3] :=
  base64_zlib_roundTrip [1, 2, 3] (by decide) cbDemo (fun bytes => bytes)
    (fun _ => []) rfl rfl

/-- A failing required-attribute read fails with SchemaError. -/
theorem reqNatAttr_error (attrs : List (String × String)) (key : String)
    (e : TmxError) (h : reqNatAttr attrs key = .error e) : e = .schemaError := by
  unfold reqNatAttr at h
  split at h
  · simp_all
  · split at h <;> simp_all

/-- A failing positive-attribute read fails with SchemaError. -/
theorem reqPosNatAttr_error (attrs : List (String × String)) (key : String)
    (e : TmxError) (h : reqPosNatAttr attrs key = .error e) : e = .schemaError := by
  unfold reqPosNatAttr at h
  split at h
  · rename_i e' heq
    have := reqNatAttr_error attrs key e' heq
    simp_all
  · split at h <;> simp_all

/-- A successful positive-attribute read is positive. -/
theorem reqPosNatAttr_pos (attrs : List (String × String)) (key : String)
    (n : Nat) (h : reqPosNatAttr attrs key = .ok n) : 0 < n := by
  unfold reqPosNatAttr at h
  split at h
  · simp_all
  · split at h <;> simp_all
    omega

/-- A failing optional-attribute read fails with SchemaError. -/
theorem optNatAttr_error (attrs : List (String × String)) (key : String)
    (dflt : Nat) (e : TmxError) (h : optNatAttr attrs key dflt = .error e) :
    e = .schemaError := by
  unfold optNatAttr at h
  split at h
  · simp_all
  · split at h <;> simp_all

/-- A failing orientation read fails with SchemaError. -/
theorem parseOrientation_error (attrs : List (String × String)) (e : TmxError)
    (h : parseOrientation attrs = .error e) : e = .schemaError := by
  unfold parseOrientation at h
  split at h
  · simp_all
  · split at h
    · simp_all
    · split at h
      · simp_all
      · split at h
        · simp_all
        · split at h <;> simp_all

/-- A failing CSV decode fails with DecodeError. -/
theorem decodeCSV_error (content : List Char) (expected : Nat) (e : TmxError)
    (h : decodeCSV content expected = .error e) : e = .decodeError := by
  unfold decodeCSV at h
  split at h
  · simp_all
  · split at h <;> simp_all

/-- A failing Plain decode fails with DecodeError. -/
theorem decodePlain_error (nodes : List GidNode) (expected : Nat) (e : TmxError)
    (h : decodePlain nodes expected = .error e) : e = .decodeError := by
  unfold decodePlain at h
  split at h
  · simp_all
  · split at h <;> simp_all

/-- A failing byte-buffer interpretation fails with DecodeError. -/
theorem interpretByteBuffer_error (bytes : List Nat) (expected : Nat) (e : TmxError)
    (h : interpretByteBuffer bytes expected = .error e) : e = .decodeError := by
  unfold interpretByteBuffer at h
  split at h
  · simp_all
  · split at h <;> simp_all

/-- A failing Base64 decode fails with DecodeError. -/
theorem decodeBase64Payload_error (cb : Collab) (comp : Compression)
    (content : List Char) (expected : Nat) (e : TmxError)
    (h : decodeBase64Payload cb comp content expected = .error e) :
    e = .decodeError := by
  unfold decodeBase64Payload at h
  split at h
  · simp_all
  · split at h
    · exact interpretByteBuffer_error _ _ _ h
    · split at h
      · simp_all
      · exact interpretByteBuffer_error _ _ _ h

/-- A failing layer-data decode fails with DecodeError or EncodingError. -/
theorem decodeLayerData_error (cb : Collab) (dataNode : XmlNode) (expected : Nat)
    (e : TmxError) (h : decodeLayerData cb dataNode expected = .error e) :
    e = .decodeError ∨ e = .encodingError := by
  unfold decodeLayerData at h
  split at h
  · exact .inl (decodePlain_error _ _ _ h)
  · split at h
    · exact .inl (decodeCSV_error _ _ _ h)
    · split at h
      · split at h
        · exact .inl (decodeBase64Payload_error _ _ _ _ _ h)
        · split at h
          · exact .inl (decodeBase64Payload_error _ _ _ _ _ h)
          · split at h
            · exact .inl (decodeBase64Payload_error _ _ _ _ _ h)
            · simp_all
      · simp_all

/-- A failing Object build fails with SchemaError. -/
theorem buildObject_error (node : XmlNode) (e : TmxError)
    (h : buildObject node = .error e) : e = .schemaError := by
  unfold buildObject at h
  rcases h1 : optNatAttr node.attrs "id" 0 with e1 | idv <;> rw [h1] at h
  · simp at h
    subst h
    exact optNatAttr_error _ _ _ _ h1
  · rcases h2 : reqNatAttr node.attrs "x" with e2 | xv <;>
      rcases h3 : reqNatAttr node.attrs "y" with e3 | yv <;>
      rw [h2, h3] at h <;> simp at h
    · subst h; exact reqNatAttr_error _ _ _ h2
    · subst h; exact reqNatAttr_error _ _ _ h2
    · subst h; exact reqNatAttr_error _ _ _ h3
    · rcases h4 : lookupAttr node.attrs "gid" with _ | s <;> rw [h4] at h <;> simp at h
      · rcases h5 : findChild "polygon" node.children with _ | p <;>
          rw [h5] at h <;> simp at h
        · rcases h6 : findChild "polyline" node.children with _ | p <;>
            rw [h6] at h <;> simp at h
          · rcases h7 : optNatAttr node.attrs "width" 0 with e7 | wv <;>
              rcases h8 : optNatAttr node.attrs "height" 0 with e8 | hv <;>
              rw [h7, h8] at h <;> simp at h
            · subst h; exact optNatAttr_error _ _ _ _ h7
            · subst h; exact optNatAttr_error _ _ _ _ h7
            · subst h; exact optNatAttr_error _ _ _ _ h8
            · rcases h9 : findChild "ellipse" node.children with _ | q <;>
                rw [h9] at h <;> simp at h
              rcases h10 : findChild "text" node.children with _ | t <;>
                rw [h10] at h <;> simp at h
      · rcases h5 : parseDecimal s.data with _ | g <;> rw [h5] at h <;> simp at h
        exact h.symm

/-- A failing Object-sequence build fails with SchemaError. -/
theorem buildObjects_error (f : XmlForest) (e : TmxError)
    (h : buildObjects f = .error e) : e = .schemaError := by
  cases f with
  | nil => simp [buildObjects] at h
  | cons n rest =>
    unfold buildObjects at h
    split at h
    · rcases h1 : buildObject n with e1 | o <;> rw [h1] at h <;> simp at h
      · subst h
        exact buildObject_error n _ h1
      · rcases h2 : buildObjects rest with e2 | os <;> rw [h2] at h <;> simp at h
        subst h
        exact buildObjects_error rest _ h2
    · exact buildObjects_error rest e h

/-- A failing inline Tileset build fails with SchemaError. -/
theorem buildTileSetInline_error (fg : Nat) (attrs : List (String × String))
    (e : TmxError) (h : buildTileSetInline fg attrs = .error e) :
    e = .schemaError := by
  unfold buildTileSetInline at h
  rcases h1 : reqPosNatAttr attrs "tilewidth" with e1 | tw <;>
    rcases h2 : reqPosNatAttr attrs "tileheight" with e2 | th <;>
    rw [h1, h2] at h <;> simp at h
  · subst h; exact reqPosNatAttr_error _ _ _ h1
  · subst h; exact reqPosNatAttr_error _ _ _ h1
  · subst h; exact reqPosNatAttr_error _ _ _ h2
  · rcases h3 : optNatAttr attrs "spacing" 0 with e3 | sp <;>
      rcases h4 : optNatAttr attrs "margin" 0 with e4 | mg <;>
      rw [h3, h4] at h <;> simp at h
    · subst h; exact optNatAttr_error _ _ _ _ h3
    · subst h; exact optNatAttr_error _ _ _ _ h3
    · subst h; exact optNatAttr_error _ _ _ _ h4
    · rcases h5 : reqNatAttr attrs "tilecount" with e5 | tc <;>
        rcases h6 : optNatAttr attrs "columns" 0 with e6 | cols <;>
        rw [h5, h6] at h <;> simp at h
      · subst h; exact reqNatAttr_error _ _ _ h5
      · subst h; exact reqNatAttr_error _ _ _ h5
      · subst h; exact optNatAttr_error _ _ _ _ h6

/-- A failing Tileset-node build fails with SchemaError or ReferenceError. -/
theorem buildTileSet_error (files : List (String × XmlNode)) (node : XmlNode)
    (e : TmxError) (h : buildTileSet files node = .error e) :
    e = .schemaError ∨ e = .referenceError := by
  unfold buildTileSet at h
  rcases h1 : reqNatAttr node.attrs "firstgid" with e1 | fg <;> rw [h1] at h <;>
    simp at h
  · subst h
    exact .inl (reqNatAttr_error _ _ _ h1)
  · rcases h2 : lookupAttr node.attrs "source" with _ | src <;> rw [h2] at h <;>
      simp at h
    · exact .inl (buildTileSetInline_error _ _ _ h)
    · rcases h3 : lookupFile files src with _ | ext <;> rw [h3] at h <;> simp at h
      · subst h
        simp
      · split at h
        · exact .inl (buildTileSetInline_error _ _ _ h)
        · simp at h
          subst h
          simp

/-- A failing Tileset-sequence build fails with SchemaError or
ReferenceError. -/
theorem buildTileSets_error (files : List (String × XmlNode)) (f : XmlForest)
    (e : TmxError) (h : buildTileSets files f = .error e) :
    e = .schemaError ∨ e = .referenceError := by
  cases f with
  | nil => simp [buildTileSets] at h
  | cons n rest =>
    unfold buildTileSets at h
    split at h
    · rcases h1 : buildTileSet files n with e1 | t <;> rw [h1] at h <;> simp at h
      · subst h
        exact buildTileSet_error files n _ h1
      · rcases h2 : buildTileSets files rest with e2 | ts <;> rw [h2] at h <;>
          simp at h
        subst h
        exact buildTileSets_error files rest _ h2
    · exact buildTileSets_error files rest e h

mutual
/-- A failing layer build never fails with RangeError. -/
theorem buildLayer_error (cb : Collab) (files : List (String × XmlNode))
    (mw mh : Nat) (n : XmlNode) (e : TmxError)
    (h : buildLayer cb files mw mh n = .error e) : e ≠ .rangeError := by
  cases n with
  | elem tag attrs tx children =>
    unfold buildLayer at h
    split at h
    · rcases h1 : optNatAttr attrs "width" mw with e1 | w <;>
        rcases h2 : optNatAttr attrs "height" mh with e2 | hv <;>
        rw [h1, h2] at h <;> simp at h
      · subst h
        have := optNatAttr_error _ _ _ _ h1
        subst this
        simp
      · subst h
        have := optNatAttr_error _ _ _ _ h1
        subst this
        simp
      · subst h
        have := optNatAttr_error _ _ _ _ h2
        subst this
        simp
      · rcases h3 : findChild "data" children with _ | dataNode <;> rw [h3] at h <;>
          simp at h
        · subst h
          simp
        · rcases h4 : decodeLayerData cb dataNode (w * hv) with e4 | words <;>
            rw [h4] at h <;> simp at h
          subst h
          rcases decodeLayerData_error _ _ _ _ h4 with h' | h' <;> subst h' <;> simp
    · split at h
      · rcases h1 : buildObjects children with e1 | objs <;> rw [h1] at h <;>
          simp at h
        subst h
        have := buildObjects_error children _ h1
        subst this
        simp
      · split at h
        · rcases h1 : findChild "image" children with _ | img <;> rw [h1] at h <;>
            simp at h
          · subst h
            simp
          · rcases h2 : lookupAttr img.attrs "source" with _ | src <;>
              rw [h2] at h <;> simp at h
            subst h
            simp
        · split at h
          · rcases h1 : buildLayers cb files mw mh children with e1 | cs <;>
              rw [h1] at h <;> simp at h
            subst h
            exact buildLayers_error cb files mw mh children _ h1
          · simp at h
/-- A failing layer-sequence build never fails with RangeError. -/
theorem buildLayers_error (cb : Collab) (files : List (String × XmlNode))
    (mw mh : Nat) (f : XmlForest) (e : TmxError)
    (h : buildLayers cb files mw mh f = .error e) : e ≠ .rangeError := by
  cases f with
  | nil => simp [buildLayers] at h
  | cons n rest =>
    unfold buildLayers at h
    rcases h1 : buildLayer cb files mw mh n with e1 | ol <;> rw [h1] at h
    · simp at h
      subst h
      exact buildLayer_error cb files mw mh n _ h1
    · cases ol with
      | none =>
        simp at h
        exact buildLayers_error cb files mw mh rest e h
      | some l =>
        simp at h
        rcases h2 : buildLayers cb files mw mh rest with e2 | ls <;> rw [h2] at h <;>
          simp at h
        subst h
        exact buildLayers_error cb files mw mh rest _ h2
end

/-- A failing Model Builder run never fails with RangeError. -/
theorem parseMapNode_error (cb : Collab) (files : List (String × XmlNode))
    (n : XmlNode) (e : TmxError) (h : parseMapNode cb files n = .error e) :
    e ≠ .rangeError := by
  cases n with
  | elem tag attrs tx children =>
    simp only [parseMapNode] at h
    split at h
    · rcases h1 : parseOrientation attrs with e1 | orient <;> rw [h1] at h <;>
        simp at h
      · subst h
        have := parseOrientation_error _ _ h1
        subst this
        simp
      · rcases h2 : reqPosNatAttr attrs "width" with e2 | w <;>
          rcases h3 : reqPosNatAttr attrs "height" with e3 | hv <;>
          rw [h2, h3] at h <;> simp at h
        · subst h
          have := reqPosNatAttr_error _ _ _ h2
          subst this
          simp
        · subst h
          have := reqPosNatAttr_error _ _ _ h2
          subst this
          simp
        · subst h
          have := reqPosNatAttr_error _ _ _ h3
          subst this
          simp
        · rcases h4 : reqPosNatAttr attrs "tilewidth" with e4 | tw <;>
            rcases h5 : reqPosNatAttr attrs "tileheight" with e5 | th <;>
            rw [h4, h5] at h <;> simp at h
          · subst h
            have := reqPosNatAttr_error _ _ _ h4
            subst this
            simp
          · subst h
            have := reqPosNatAttr_error _ _ _ h4
            subst this
            simp
          · subst h
            have := reqPosNatAttr_error _ _ _ h5
            subst this
            simp
          · rcases h6 : buildTileSets files children with e6 | tss <;>
              rw [h6] at h <;> simp at h
            · subst h
              rcases buildTileSets_error files children _ h6 with h' | h' <;>
                subst h' <;> simp
            · rcases h7 : buildLayers cb files w hv children with e7 | lys <;>
                rw [h7] at h <;> simp at h
              subst h
              exact buildLayers_error cb files w hv children _ h7
    · simp at h
      subst h
      simp

/-- A failing entry-point run never fails with RangeError. -/
theorem parseMapFromXml_error (cb : Collab) (files : List (String × XmlNode))
    (xr : Option XmlNode) (e : TmxError)
    (h : parseMapFromXml cb files xr = .error e) : e ≠ .rangeError := by
  cases xr with
  | none =>
    simp [parseMapFromXml] at h
    subst h
    simp
  | some root =>
    exact parseMapNode_error cb files root e h

/-- A successful layer-data decode returns exactly the expected number of
packed references. -/
theorem decodeLayerData_ok_length (cb : Collab) (dataNode : XmlNode)
    (expected : Nat) (ws : List Nat)
    (h : decodeLayerData cb dataNode expected = .ok ws) : ws.length = expected := by
  unfold decodeLayerData at h
  split at h
  · exact (decodePlain_ok _ _ _ h).2
  · split at h
    · exact (decodeCSV_ok _ _ _ h).2
    · split at h
      · split at h
        · exact decodeBase64Payload_ok_length _ _ _ _ _ h
        · split at h
          · exact decodeBase64Payload_ok_length _ _ _ _ _ h
          · split at h
            · exact decodeBase64Payload_ok_length _ _ _ _ _ h
            · simp at h
      · simp at h

mutual
/-- A successfully built layer satisfies the shape invariant: every TileLayer
within it holds exactly width × height cells. -/
theorem buildLayer_cellsOk (cb : Collab) (files : List (String × XmlNode))
    (mw mh : Nat) (n : XmlNode) (l : Layer)
    (h : buildLayer cb files mw mh n = .ok (some l)) : layerCellsOk l := by
  cases n with
  | elem tag attrs tx children =>
    unfold buildLayer at h
    split at h
    · rcases h1 : optNatAttr attrs "width" mw with e1 | w <;>
        rcases h2 : optNatAttr attrs "height" mh with e2 | hv <;>
        rw [h1, h2] at h <;> simp at h
      rcases h3 : findChild "data" children with _ | dataNode <;> rw [h3] at h <;>
        simp at h
      rcases h4 : decodeLayerData cb dataNode (w * hv) with e4 | words <;>
        rw [h4] at h <;> simp at h
      subst h
      show (List.map decodeCell words).length = w * hv
      rw [List.length_map]
      exact decodeLayerData_ok_length cb dataNode (w * hv) words h4
    · split at h
      · rcases h1 : buildObjects children with e1 | objs <;> rw [h1] at h <;>
          simp at h
        subst h
        trivial
      · split at h
        · rcases h1 : findChild "image" children with _ | img <;> rw [h1] at h <;>
            simp at h
          rcases h2 : lookupAttr img.attrs "source" with _ | src <;> rw [h2] at h <;>
            simp at h
          subst h
          trivial
        · split at h
          · rcases h1 : buildLayers cb files mw mh children with e1 | cs <;>
              rw [h1] at h <;> simp at h
            subst h
            show forestCellsOk cs
            exact buildLayers_cellsOk cb files mw mh children cs h1
          · simp at h
/-- A successfully built layer sequence satisfies the shape invariant. -/
theorem buildLayers_cellsOk (cb : Collab) (files : List (String × XmlNode))
    (mw mh : Nat) (f : XmlForest) (ls : LayerForest)
    (h : buildLayers cb files mw mh f = .ok ls) : forestCellsOk ls := by
  cases f with
  | nil =>
    simp [buildLayers] at h
    subst h
    trivial
  | cons n rest =>
    unfold buildLayers at h
    rcases h1 : buildLayer cb files mw mh n with e1 | ol <;> rw [h1] at h
    · simp at h
    · cases ol with
      | none =>
        simp at h
        exact buildLayers_cellsOk cb files mw mh rest ls h
      | some l =>
        simp at h
        rcases h2 : buildLayers cb files mw mh rest with e2 | ls' <;> rw [h2] at h <;>
          simp at h
        subst h
        exact ⟨buildLayer_cellsOk cb files mw mh n l h1,
          buildLayers_cellsOk cb files mw mh rest ls' h2⟩
end

/-- A successfully built Map has positive grid and tile dimensions and
satisfies the per-layer shape invariant. -/
theorem parseMapNode_ok (cb : Collab) (files : List (String × XmlNode))
    (n : XmlNode) (m : Map) (h : parseMapNode cb files n = .ok m) :
    0 < m.width ∧ 0 < m.height ∧ 0 < m.tileWidth ∧ 0 < m.tileHeight ∧
      forestCellsOk m.layers := by
  cases n with
  | elem tag attrs tx children =>
    simp only [parseMapNode] at h
    split at h
    · rcases h1 : parseOrientation attrs with e1 | orient <;> rw [h1] at h <;>
        simp at h
      rcases h2 : reqPosNatAttr attrs "width" with e2 | w <;>
        rcases h3 : reqPosNatAttr attrs "height" with e3 | hv <;>
        rw [h2, h3] at h <;> simp at h
      rcases h4 : reqPosNatAttr attrs "tilewidth" with e4 | tw <;>
        rcases h5 : reqPosNatAttr attrs "tileheight" with e5 | th <;>
        rw [h4, h5] at h <;> simp at h
      rcases h6 : buildTileSets files children with e6 | tss <;> rw [h6] at h <;>
        simp at h
      rcases h7 : buildLayers cb files w hv children with e7 | lys <;>
        rw [h7] at h <;> simp at h
      subst h
      refine ⟨reqPosNatAttr_pos _ _ _ h2, reqPosNatAttr_pos _ _ _ h3,
        reqPosNatAttr_pos _ _ _ h4, reqPosNatAttr_pos _ _ _ h5, ?_⟩
      exact buildLayers_cellsOk cb files w hv children lys h7
    · simp at h

/-- A successful entry-point run returns a Map with positive dimensions
satisfying the shape invariant. -/
theorem parseMapFromXml_ok (cb : Collab) (files : List (String × XmlNode))
    (xr : Option XmlNode) (m : Map) (h : parseMapFromXml cb files xr = .ok m) :
    0 < m.width ∧ 0 < m.height ∧ 0 < m.tileWidth ∧ 0 < m.tileHeight ∧
      forestCellsOk m.layers := by
  cases xr with
  | none => simp [parseMapFromXml] at h
  | some root => exact parseMapNode_ok cb files root m h

/-- C9: the entry point either aborts with a single terminal failure of one
of the five build-time kinds — SyntaxError (here `xmlError`), SchemaError,
EncodingError, DecodeError, ReferenceError — and returns no Map at all, or
returns a fully populated Map (positive dimensions, every TileLayer holding
exactly width × height cells); it never fails with RangeError, which arises
only at resolution time, to the resolving caller. -/
theorem parse_error_policy (cb : Collab) (files : List (String × XmlNode))
    (xr : Option XmlNode) :
    (∀ e, parseMapFromXml cb files xr = .error e →
      e = .xmlError ∨ e = .schemaError ∨ e = .encodingError ∨
        e = .decodeError ∨ e = .referenceError) ∧
    (∀ m, parseMapFromXml cb files xr = .ok m →
      0 < m.width ∧ 0 < m.height ∧ 0 < m.tileWidth ∧ 0 < m.tileHeight ∧
        forestCellsOk m.layers) ∧
    (∃ ts gid, getTileSetFromGID ts gid = .rangeError) := by
  refine ⟨?_, ?_, ?_⟩
  · intro e he
    have hne := parseMapFromXml_error cb files xr e he
    cases e <;> simp_all
  · exact fun m hm => parseMapFromXml_ok cb files xr m hm
  · exact ⟨demoTileSets, 100, by decide⟩

/-- C9 witness: the policy applied to the concrete demo document, whose
parse succeeds and yields the demo Map — its dimensions are positive and its
tile layer holds exactly 2 × 1 cells. -/
theorem parse_error_policy_witness :
    0 < demoMap.width ∧ 0 < demoMap.height ∧ 0 < demoMap.tileWidth ∧
      0 < demoMap.tileHeight ∧ forestCellsOk demoMap.layers :=
  (parse_error_policy cbNone [] (some demoMapXml)).2.1 demoMap (by rfl)

/-- C10: for every Object held by an ObjectLayer of a successfully built
Map, the `isTile` predicate is true exactly when the object's concrete
variant is TileObject, so the documented `isTile`-guarded downcast never
misinterprets another variant. -/
theorem isTile_iff_tileObject (cb : Collab) (files : List (String × XmlNode))
    (xr : Option XmlNode) (m : Map) (_hm : parseMapFromXml cb files xr = .ok m) :
    ∀ o ∈ collectForestObjects m.layers,
      (Object.isTile o = true ↔ isTileObjectVariant o) := by
  intro o _
  cases o <;> simp [Object.isTile, isTileObjectVariant]

/-- C10 witness: the guard theorem applied to the demo document's parse
result and the tile object it holds. -/
theorem isTile_iff_tileObject_witness :
    Object.isTile (.tileObject { id := 1, name := "", x := 0, y := 0 } 5) = true ↔
      isTileObjectVariant (.tileObject { id := 1, name := "", x := 0, y := 0 } 5) :=
  isTile_iff_tileObject cbNone [] (some demoMapXml) demoMap (by rfl)
    (.tileObject { id := 1, name := "", x := 0, y := 0 } 5) (by decide)

end Tmx
